import Mathlib

/-!
Shallow embedding of the self-referential request/response container of
`core/lib/src/req_res_pair.rs` (struct `ReqResPair`, enum `PayloadKind`, the
`HttpBody` impl and the `Drop` impl), together with a model of the chunked
byte-stream adapter (`crate::ext::IntoBytesStream`) whose source is not among
the files at hand and is therefore modelled from the specification.

Modelling conventions:
* `Arc<Rocket>`, `Pin<Box<_>>` and `PhantomPinned` are ownership/address
  devices with no observable pure behaviour; the embedding works with plain
  values.
* A Rust `assert!` failure (and the `expect` on the `u64 -> usize`
  conversion) is a fatal panic; it is modelled by the `PanicOr.panic`
  outcome.  `std::hint::unreachable_unchecked` is likewise modelled as a
  fatal outcome, so that reaching it is observable in the model.
* Machine integers (`u16` status codes, `u64` sizes) are modelled as `Nat`;
  the platform-dependent `usize` capacity is an explicit `usizeMax`
  parameter of `into_hyper_response`, so the `u64 -> usize` conversion
  fails exactly when the value exceeds it.
* The body reader (`dyn AsyncRead`) is modelled as the byte sequence it
  yields, a `List Nat`; readers in this model are always ready, so the
  `Poll::Pending` and read-error cases of the transport contract do not
  arise.
-/

namespace ReqResPairModel

/-- The long-lived server context (`Rocket`), opaque to this core beyond
being shared; modelled as a tagged value. -/
structure Rocket where
  tag : Nat
deriving DecidableEq

/-- A request value (`Request<'r>`); its borrow structure is irrelevant to
the claims, so it is modelled as a tagged value. -/
structure Request where
  tag : Nat
deriving DecidableEq

/-- `rocket::response::Body`: an unknown-length readable source with its
chunk size (`Body::Chunked(body, chunk_size)`) or a known-length source with
its declared size (`Body::Sized(body, size)`).  The reader is modelled as
the byte sequence it yields; the declared size of a `Sized` body is kept
separate from the data, as in the source. -/
inductive Body where
  | chunked (data : List Nat) (chunkSize : Nat)
  | sized (data : List Nat) (size : Nat)
deriving DecidableEq

/-- A response value (`Response<'r>`): status code, ordered header list and
optional body, the fields `into_hyper_response` reads. -/
structure Response where
  status : Nat
  headers : List (String × String)
  body : Option Body
deriving DecidableEq

/-- Modelled from the spec: the state of the ChunkedStreamAdapter
(`IntoBytesStream`, from `crate::ext`, not among the sources at hand):
it "wraps a BodySource plus a fixed chunk size; stateless across polls
except for the underlying reader's own position".  The remaining bytes of
the reader and the fixed chunk size are the whole state. -/
structure IntoBytesStream where
  data : List Nat
  chunkSize : Nat
deriving DecidableEq

/-- Modelled from the spec: `AsyncReadExt::into_bytes_stream(chunk_size)`
wraps a readable source as a chunk stream with the given fixed chunk size. -/
def intoBytesStream (data : List Nat) (chunkSize : Nat) : IntoBytesStream :=
  ⟨data, chunkSize⟩

/-- Modelled from the spec: one `next()` poll of the adapter "attempts to
fill a buffer of at most `chunk_size` bytes from the underlying reader";
an exhausted reader ends the sequence (`none`), otherwise the filled chunk
is yielded together with the advanced stream state. -/
def pollNext (s : IntoBytesStream) : Option (List Nat × IntoBytesStream) :=
  match s.data with
  | [] => none
  | x :: xs => some ((x :: xs).take s.chunkSize, ⟨(x :: xs).drop s.chunkSize, s.chunkSize⟩)

/-- Modelled from the spec: the finite sequence of chunks obtained by
draining the adapter to exhaustion — maximal chunks of `c` bytes taken from
the front of the remaining data until the reader is exhausted.  Written
with `xs.drop (c - 1)` (equal to `(x :: xs).drop c` for `c ≥ 1`) so that
the recursion terminates for every `c`. -/
def chunksOf (c : Nat) : List Nat → List (List Nat)
  | [] => []
  | x :: xs => (x :: xs).take c :: chunksOf c (xs.drop (c - 1))
termination_by l => l.length
decreasing_by
  simp only [List.length_drop, List.length_cons]
  omega

/-- Modelled from the spec: draining the stream to exhaustion. -/
def drain (s : IntoBytesStream) : List (List Nat) :=
  chunksOf s.chunkSize s.data

/-- The container of `req_res_pair.rs`: a server-context handle, then
optionally a request borrowing from it, a response borrowing from the
request, and a stream adapter borrowing from the request. -/
structure ReqResPair where
  rocket : Rocket
  request : Option Request
  response : Option Response
  stream : Option IntoBytesStream
deriving DecidableEq

/-- `enum PayloadKind { Empty, ReqRes(Pin<Box<ReqResPair>>) }`. -/
inductive PayloadKind where
  | empty
  | reqRes (p : ReqResPair)
deriving DecidableEq

/-- Outcome of running a piece of Rust code that may panic (a failed
`assert!`/`expect`, or reaching `unreachable_unchecked`). -/
inductive PanicOr (α : Type) where
  | panic (msg : String)
  | ok (a : α)
deriving DecidableEq

/-- Whether the outcome is a fatal panic. -/
def PanicOr.isPanic {α : Type} : PanicOr α → Bool
  | .panic _ => true
  | .ok _ => false

/-- `ReqResPair::new`: a fresh pinned container holding only the server
handle. -/
def ReqResPair.new (rocket : Rocket) : ReqResPair :=
  ⟨rocket, none, none, none⟩

/-- `ReqResPair::try_set_request`: asserts that no response has been set,
then runs the request-construction function on the shared server context;
on success stores the request, on failure returns the typed error and
leaves the container untouched. -/
def try_set_request {ε : Type} (p : ReqResPair) (f : Rocket → Except ε Request) :
    PanicOr (Except ε Unit × ReqResPair) :=
  if p.response.isSome then
    .panic "try_set_request was called after set_response"
  else
    match f p.rocket with
    | .error e => .ok (.error e, p)
    | .ok req => .ok (.ok (), { p with request := some req })

/-- `ReqResPair::set_response`: asserts that a request has been set and no
response has, then runs the handler with the server context and an
exclusive reference to the stored request (modelled by letting it return
the possibly-updated request next to the response), and stores the
response. -/
def set_response (p : ReqResPair) (f : Rocket → Request → Request × Response) :
    PanicOr ReqResPair :=
  match p.request with
  | none => .panic "set_response was called before try_set_request"
  | some req =>
    if p.response.isSome then
      .panic "set_response was called twice"
    else
      let rr := f p.rocket req
      .ok { p with request := some rr.1, response := some rr.2 }

/-- The hyper header name rendered by `header::CONTENT_LENGTH`. -/
def contentLength : String := "content-length"

/-- The transport-facing response produced by `into_hyper_response`:
status, ordered header list, and body payload. -/
structure HyperResponse where
  status : Nat
  headers : List (String × String)
  payload : PayloadKind
deriving DecidableEq

/-- `ReqResPair::into_hyper_response`: asserts that a response has been
set; copies status and headers into the builder; takes the body out of the
response; with no body it adds `Content-Length: 0` and returns the `Empty`
payload; with a `Chunked` body it converts the body's own chunk size to
`usize` (`expect`-panicking when it exceeds `usizeMax`); with a `Sized`
body it adds `Content-Length: <size>` and uses the fixed chunk size 4096;
in either body case it stores the byte stream in the container and hands
the container itself back as the `ReqRes` payload.  Building the final
response can fail with an I/O error in the source only through invalid
header data, which this model does not represent, so the `Except` layer of
the result is always `ok` here. -/
def into_hyper_response (usizeMax : Nat) (p : ReqResPair) :
    PanicOr (Except String HyperResponse) :=
  match p.response with
  | none => .panic "into_hyper_response was called before set_response"
  | some res =>
    match res.body with
    | none =>
      .ok (.ok { status := res.status
                 headers := res.headers ++ [(contentLength, "0")]
                 payload := .empty })
    | some (.chunked data cs) =>
      if cs > usizeMax then
        .panic "u64 -> usize overflow"
      else
        .ok (.ok { status := res.status
                   headers := res.headers
                   payload := .reqRes { p with
                     response := some { res with body := none }
                     stream := some (intoBytesStream data cs) } })
    | some (.sized data size) =>
      .ok (.ok { status := res.status
                 headers := res.headers ++ [(contentLength, toString size)]
                 payload := .reqRes { p with
                   response := some { res with body := none }
                   stream := some (intoBytesStream data 4096) } })

/-- `<PayloadKind as HttpBody>::poll_data`: `Empty` is immediately
end-of-body; `ReqRes` forwards the poll to the container's stream adapter,
reaching `unreachable_unchecked` (modelled as a fatal outcome) when the
stream is absent.  The result is the yielded chunk (or `none` at
end-of-body) together with the payload's successor state. -/
def poll_data (pk : PayloadKind) : PanicOr (Option (List Nat) × PayloadKind) :=
  match pk with
  | .empty => .ok (none, .empty)
  | .reqRes p =>
    match p.stream with
    | none => .panic "unreachable: stream is None while polling ReqRes"
    | some s =>
      match pollNext s with
      | none => .ok (none, .reqRes p)
      | some (chunk, s2) => .ok (some chunk, .reqRes { p with stream := some s2 })

/-- The resources a container owns, for stating the release order of
`impl Drop for ReqResPair`. -/
inductive Resource where
  | stream
  | response
  | request
  | rocket
deriving DecidableEq

/-- `impl Drop for ReqResPair`: the drop glue first runs the explicit
assignments `self.stream = None; self.response = None; self.request =
None;` (each releasing the old value when present, in that order) and then
drops the remaining fields, of which only the `Arc<Rocket>` handle still
holds a resource (its release only drops the reference count).  The result
is the sequence of release events. -/
def dropOrder (p : ReqResPair) : List Resource :=
  (if p.stream.isSome then [Resource.stream] else []) ++
  (if p.response.isSome then [Resource.response] else []) ++
  (if p.request.isSome then [Resource.request] else []) ++
  [Resource.rocket]

/-! ### Lemmas about the chunk stream -/

/-- For a positive chunk size the recursion step consumes `c` bytes of the
whole list. -/
theorem drop_pred_cons (c : Nat) (hc : 1 ≤ c) (x : Nat) (xs : List Nat) :
    xs.drop (c - 1) = (x :: xs).drop c := by
  match c, hc with
  | Nat.succ k, _ => rfl

/-- Unfolding `chunksOf` on a nonempty list, phrased with `drop c` on the
whole list. -/
theorem chunksOf_cons (c : Nat) (hc : 1 ≤ c) (x : Nat) (xs : List Nat) :
    chunksOf c (x :: xs) = (x :: xs).take c :: chunksOf c ((x :: xs).drop c) := by
  rw [chunksOf, drop_pred_cons c hc]

/-- Draining never produces an empty chunk list from a nonempty source. -/
theorem chunksOf_ne_nil (c : Nat) (x : Nat) (xs : List Nat) :
    chunksOf c (x :: xs) ≠ [] := by
  rw [chunksOf]
  exact List.cons_ne_nil _ _

/-- Concatenating the drained chunks restores the source bytes. -/
theorem chunksOf_flatten (c : Nat) (hc : 1 ≤ c) (l : List Nat) :
    (chunksOf c l).flatten = l := by
  have H : ∀ n, ∀ l : List Nat, l.length ≤ n → (chunksOf c l).flatten = l := by
    intro n
    induction n with
    | zero =>
      intro l hl
      have : l = [] := List.length_eq_zero.mp (Nat.le_zero.mp hl)
      subst this
      rw [chunksOf]
      rfl
    | succ n ih =>
      intro l hl
      match l with
      | [] =>
        rw [chunksOf]
        rfl
      | x :: xs =>
        rw [chunksOf_cons c hc, List.flatten_cons]
        have hlen : ((x :: xs).drop c).length ≤ n := by
          simp only [List.length_drop, List.length_cons]
          simp only [List.length_cons] at hl
          omega
        rw [ih _ hlen, List.take_append_drop]

  exact H l.length l (Nat.le_refl _)

/-- The number of drained chunks is the ceiling of `length / c`. -/
theorem chunksOf_length (c : Nat) (hc : 1 ≤ c) (l : List Nat) :
    (chunksOf c l).length = (l.length + c - 1) / c := by
  have H : ∀ n, ∀ l : List Nat, l.length ≤ n →
      (chunksOf c l).length = (l.length + c - 1) / c := by
    intro n
    induction n with
    | zero =>
      intro l hl
      have : l = [] := List.length_eq_zero.mp (Nat.le_zero.mp hl)
      subst this
      rw [chunksOf]
      simp only [List.length_nil, Nat.zero_add]
      exact (Nat.div_eq_of_lt (by omega)).symm
    | succ n ih =>
      intro l hl
      match l with
      | [] =>
        rw [chunksOf]
        simp only [List.length_nil, Nat.zero_add]
        exact (Nat.div_eq_of_lt (by omega)).symm
      | x :: xs =>
        rw [chunksOf_cons c hc, List.length_cons]
        have hlen : ((x :: xs).drop c).length ≤ n := by
          simp only [List.length_drop, List.length_cons]
          simp only [List.length_cons] at hl
          omega
        rw [ih _ hlen]
        simp only [List.length_drop, List.length_cons]
        rcases Nat.lt_or_ge (xs.length + 1) c with hnc | hnc
        · have h1 : xs.length + 1 - c = 0 := by omega
          have h2 : xs.length + 1 + c - 1 = (xs.length) + c := by omega
          rw [h1, h2, Nat.add_div_right _ (by omega)]
          have h3 : (0 : Nat) + c - 1 = c - 1 := by omega
          rw [h3, Nat.div_eq_of_lt (by omega), Nat.div_eq_of_lt (by omega)]
        · have h1 : xs.length + 1 - c + c - 1 = xs.length := by omega
          have h2 : xs.length + 1 + c - 1 = xs.length + c := by omega
          rw [h1, h2, Nat.add_div_right _ (by omega)]
  exact H l.length l (Nat.le_refl _)

/-- `getLast?` skips the head when the tail is nonempty. -/
theorem getLast?_cons_ne_nil {α : Type} (a : α) (l : List α) (h : l ≠ []) :
    (a :: l).getLast? = l.getLast? := by
  obtain ⟨y, ys, rfl⟩ := List.exists_cons_of_ne_nil h
  exact List.getLast?_cons_cons

/-- The last drained chunk has length `length % c`, or `c` when `c`
divides the length evenly. -/
theorem chunksOf_last (c : Nat) (hc : 1 ≤ c) (l : List Nat) (hl : l ≠ []) :
    ((chunksOf c l).getLast?).map List.length =
      some (if l.length % c = 0 then c else l.length % c) := by
  have H : ∀ n, ∀ l : List Nat, l.length ≤ n → l ≠ [] →
      ((chunksOf c l).getLast?).map List.length =
        some (if l.length % c = 0 then c else l.length % c) := by
    intro n
    induction n with
    | zero =>
      intro l hl hne
      have : l = [] := List.length_eq_zero.mp (Nat.le_zero.mp hl)
      exact absurd this hne
    | succ n ih =>
      intro l hl hne
      match l with
      | x :: xs =>
        rw [chunksOf_cons c hc]
        rcases Nat.lt_or_ge xs.length c with hlt | hge
        · -- a single chunk: the whole list fits in one chunk of size ≤ c
          have hdrop : (x :: xs).drop c = [] := by
            rw [List.drop_eq_nil_iff]
            simp only [List.length_cons]
            omega
          rw [hdrop, chunksOf]
          have htake : (x :: xs).take c = x :: xs := by
            apply List.take_of_length_le
            simp only [List.length_cons]
            omega
          rw [htake]
          simp only [List.getLast?_singleton, Option.map_some', List.length_cons]
          rcases Nat.lt_or_ge (xs.length + 1) c with hlt2 | hge2
          · rw [Nat.mod_eq_of_lt hlt2, if_neg (by omega)]
          · have : xs.length + 1 = c := by omega
            rw [this, Nat.mod_self, if_pos rfl]
        · -- more than one chunk: recurse on the dropped remainder
          have hne2 : (x :: xs).drop c ≠ [] := by
            simp only [ne_eq, List.drop_eq_nil_iff, List.length_cons, not_le]
            omega
          obtain ⟨y, ys, hys⟩ := List.exists_cons_of_ne_nil hne2
          have hlen : ((x :: xs).drop c).length ≤ n := by
            simp only [List.length_drop, List.length_cons]
            simp only [List.length_cons] at hl
            omega
          have hrec := ih _ hlen hne2
          have htail_ne : chunksOf c ((x :: xs).drop c) ≠ [] := by
            rw [hys]
            exact chunksOf_ne_nil c y ys
          rw [getLast?_cons_ne_nil _ _ htail_ne, hrec]
          simp only [List.length_drop, List.length_cons]
          have hmod : (xs.length + 1 - c) % c = (xs.length + 1) % c := by
            conv_rhs => rw [show xs.length + 1 = xs.length + 1 - c + c by omega]
            rw [Nat.add_mod_right]
          rw [hmod]
  exact H l.length l (Nat.le_refl _) hl

/-- Draining agrees with repeated `pollNext`: an exhausted stream drains to
nothing, and a successful poll peels off exactly the first drained chunk. -/
theorem drain_pollNext (s : IntoBytesStream) (hc : 1 ≤ s.chunkSize) :
    (pollNext s = none → drain s = []) ∧
    (∀ ch s2, pollNext s = some (ch, s2) → drain s = ch :: drain s2) := by
  obtain ⟨data, c⟩ := s
  constructor
  · intro h
    match data, h with
    | [], _ => rw [drain, chunksOf]
    | x :: xs, h => simp [pollNext] at h
  · intro ch s2 h
    match data, h with
    | [], h => simp [pollNext] at h
    | x :: xs, h =>
      simp only [pollNext, Option.some.injEq, Prod.mk.injEq] at h
      obtain ⟨h1, h2⟩ := h
      subst h1
      subst h2
      exact chunksOf_cons c hc x xs

/-! ### Concrete fixtures used by counterexamples and witnesses -/

/-- A concrete server context. -/
def rocket0 : Rocket := ⟨0⟩

/-- A request-construction function that always succeeds. -/
def mkReq : Rocket → Except String Request := fun _ => .ok ⟨1⟩

/-- A fresh container (`Bound` phase). -/
def pairBound : ReqResPair := ReqResPair.new rocket0

/-- The container after one successful `try_set_request` (`Requested`
phase). -/
def pairRequested : ReqResPair := ⟨rocket0, some ⟨1⟩, none, none⟩

/-- A response with no body. -/
def resNoBody : Response := ⟨200, [], none⟩

/-- The container after `set_response` stored a body-less response
(`Responded` phase). -/
def pairResponded : ReqResPair := ⟨rocket0, some ⟨1⟩, some resNoBody, none⟩

/-- A handler that returns the request unchanged and a body-less
response. -/
def handler0 : Rocket → Request → Request × Response := fun _ r => (r, resNoBody)

/-- The usable `usize` range of a 64-bit platform. -/
def usizeMax64 : Nat := 2 ^ 64 - 1

/-- The usable `usize` range of a 32-bit platform. -/
def usizeMax32 : Nat := 2 ^ 32 - 1

/-! ### C1 -/

/-- C1 fails on the code: `try_set_request` only asserts that no response
has been set.  Starting from a fresh container, a first call succeeds, and
a second call on the resulting container does not panic — it succeeds
again (replacing the stored request) because the response is still
absent. -/
theorem c1_counterexample :
    try_set_request pairBound mkReq = .ok (.ok (), pairRequested) ∧
    (try_set_request pairRequested mkReq).isPanic = false := by
  constructor <;> rfl

/-- C1 (amended): `try_set_request` fails fatally exactly when a response
has already been set; while no response is set, any call — including a
second call after a successful first one — does not panic. -/
theorem c1_set_request_panics_iff_response_set {ε : Type} (p : ReqResPair)
    (f : Rocket → Except ε Request) :
    (p.response.isSome = true →
      try_set_request p f = .panic "try_set_request was called after set_response") ∧
    (p.response = none → (try_set_request p f).isPanic = false) := by
  constructor
  · intro h
    simp [try_set_request, h]
  · intro h
    cases hf : f p.rocket <;> simp [try_set_request, h, hf, PanicOr.isPanic]

/-- Witness for C1's amended theorem at concrete containers in the
`Responded` and `Bound` phases. -/
theorem c1_witness :
    try_set_request pairResponded mkReq =
      .panic "try_set_request was called after set_response" ∧
    (try_set_request pairBound mkReq).isPanic = false :=
  ⟨(c1_set_request_panics_iff_response_set pairResponded mkReq).1 rfl,
   (c1_set_request_panics_iff_response_set pairBound mkReq).2 rfl⟩

/-! ### C2 -/

/-- A container holding a chunked body whose declared chunk size is 7. -/
def pairChunked7 : ReqResPair :=
  ⟨rocket0, some ⟨1⟩, some ⟨200, [], some (.chunked [1, 2, 3] 7)⟩, none⟩

/-- C2 fails on the code: for a `Chunked` body the stream is built with
the chunk size stored in the body (here 7), not with the fixed default
4096 — only `Sized` bodies use 4096. -/
theorem c2_counterexample :
    into_hyper_response usizeMax64 pairChunked7 =
      .ok (.ok ⟨200, [],
        .reqRes ⟨rocket0, some ⟨1⟩, some ⟨200, [], none⟩, some ⟨[1, 2, 3], 7⟩⟩⟩) ∧
    (7 : Nat) ≠ 4096 := by
  constructor
  · rfl
  · decide

/-- C2 (amended): the chunk size used to build the byte stream is the
fixed default 4096 for a `Sized` body, and the body's own declared chunk
size for a `Chunked` body (once it fits in `usize`). -/
theorem c2_chunk_sizes (u : Nat) (p : ReqResPair) (res : Response)
    (data : List Nat) (cs sz : Nat) :
    (p.response = some res → res.body = some (.chunked data cs) → cs ≤ u →
      into_hyper_response u p =
        .ok (.ok ⟨res.status, res.headers,
          .reqRes { p with response := some { res with body := none }
                           stream := some (intoBytesStream data cs) }⟩)) ∧
    (p.response = some res → res.body = some (.sized data sz) →
      into_hyper_response u p =
        .ok (.ok ⟨res.status, res.headers ++ [(contentLength, toString sz)],
          .reqRes { p with response := some { res with body := none }
                           stream := some (intoBytesStream data 4096) }⟩)) := by
  constructor
  · intro h1 h2 h3
    simp [into_hyper_response, h1, h2, Nat.not_lt.mpr h3]
  · intro h1 h2
    simp [into_hyper_response, h1, h2]

/-- Witness for C2's amended theorem: a chunked body with chunk size 7 and
a sized body, both on concrete containers. -/
theorem c2_witness :
    into_hyper_response usizeMax64 pairChunked7 =
      .ok (.ok ⟨200, [],
        .reqRes ⟨rocket0, some ⟨1⟩, some ⟨200, [], none⟩,
          some (intoBytesStream [1, 2, 3] 7)⟩⟩) ∧
    into_hyper_response usizeMax64 ⟨rocket0, some ⟨1⟩, some ⟨200, [], some (.sized [5] 1)⟩, none⟩ =
      .ok (.ok ⟨200, [(contentLength, toString (1 : Nat))],
        .reqRes ⟨rocket0, some ⟨1⟩, some ⟨200, [], none⟩,
          some (intoBytesStream [5] 4096)⟩⟩) :=
  ⟨(c2_chunk_sizes usizeMax64 pairChunked7 ⟨200, [], some (.chunked [1, 2, 3] 7)⟩
      [1, 2, 3] 7 0).1 rfl rfl (by decide),
   (c2_chunk_sizes usizeMax64 ⟨rocket0, some ⟨1⟩, some ⟨200, [], some (.sized [5] 1)⟩, none⟩
      ⟨200, [], some (.sized [5] 1)⟩ [5] 0 1).2 rfl rfl⟩

/-! ### C3 -/

/-- C3: when the `u64` chunk size of a `Chunked` body exceeds the
platform's `usize` range, `into_hyper_response` fails at construction time
(the `expect` on the conversion), so no transport response — and hence no
byte of the body — is ever produced. -/
theorem c3_chunk_size_overflow_fails_at_construction (u : Nat) (p : ReqResPair)
    (res : Response) (data : List Nat) (cs : Nat)
    (h1 : p.response = some res) (h2 : res.body = some (.chunked data cs))
    (h3 : u < cs) :
    into_hyper_response u p = .panic "u64 -> usize overflow" := by
  simp [into_hyper_response, h1, h2, h3]

/-- Witness for C3 on a 32-bit platform: a chunk size of `2 ^ 32` does not
fit in `usize`. -/
theorem c3_witness :
    into_hyper_response usizeMax32
      ⟨rocket0, some ⟨1⟩, some ⟨200, [], some (.chunked [9] (2 ^ 32))⟩, none⟩ =
      .panic "u64 -> usize overflow" :=
  c3_chunk_size_overflow_fails_at_construction usizeMax32
    ⟨rocket0, some ⟨1⟩, some ⟨200, [], some (.chunked [9] (2 ^ 32))⟩, none⟩
    ⟨200, [], some (.chunked [9] (2 ^ 32))⟩ [9] (2 ^ 32) rfl rfl (by decide)

/-! ### C4 -/

/-- C4: whatever phase the container reached, its drop glue releases the
owned resources it holds in the fixed order stream, response, request,
rocket handle: the release sequence is always a subsequence of that fixed
order, every resource the container holds is released, and the
server-context handle is always released last. -/
theorem c4_drop_order_fixed (p : ReqResPair) :
    List.Sublist (dropOrder p)
      [Resource.stream, Resource.response, Resource.request, Resource.rocket] ∧
    (dropOrder p).getLast? = some Resource.rocket ∧
    (p.stream.isSome = true → Resource.stream ∈ dropOrder p) ∧
    (p.response.isSome = true → Resource.response ∈ dropOrder p) ∧
    (p.request.isSome = true → Resource.request ∈ dropOrder p) := by
  cases hs : p.stream.isSome <;> cases hr : p.response.isSome <;>
    cases hq : p.request.isSome <;>
    simp [dropOrder, hs, hr, hq]

/-- Witness for C4 on a container in the `Streaming` phase (all four
resources held). -/
theorem c4_witness :
    Resource.stream ∈ dropOrder ⟨rocket0, some ⟨1⟩, some resNoBody, some ⟨[1], 1⟩⟩ ∧
    (dropOrder ⟨rocket0, some ⟨1⟩, some resNoBody, some ⟨[1], 1⟩⟩).getLast? =
      some Resource.rocket :=
  ⟨(c4_drop_order_fixed ⟨rocket0, some ⟨1⟩, some resNoBody, some ⟨[1], 1⟩⟩).2.2.1 rfl,
   (c4_drop_order_fixed ⟨rocket0, some ⟨1⟩, some resNoBody, some ⟨[1], 1⟩⟩).2.1⟩

/-! ### C5 -/

/-- C5: `set_response` fails fatally when called before a request has been
set, and fails fatally when called a second time (a response already
stored). -/
theorem c5_set_response_phase_asserts (p : ReqResPair)
    (f : Rocket → Request → Request × Response) :
    (p.request = none →
      set_response p f = .panic "set_response was called before try_set_request") ∧
    (p.request.isSome = true → p.response.isSome = true →
      set_response p f = .panic "set_response was called twice") := by
  constructor
  · intro h
    simp [set_response, h]
  · intro h1 h2
    cases hreq : p.request with
    | none => rw [hreq] at h1; exact absurd h1 (by decide)
    | some req => simp [set_response, hreq, h2]

/-- Witness for C5 at a fresh container (no request) and at a container
that already stored a response. -/
theorem c5_witness :
    set_response pairBound handler0 =
      .panic "set_response was called before try_set_request" ∧
    set_response pairResponded handler0 = .panic "set_response was called twice" :=
  ⟨(c5_set_response_phase_asserts pairBound handler0).1 rfl,
   (c5_set_response_phase_asserts pairResponded handler0).2 rfl rfl⟩

/-! ### C6 -/

/-- Whether a header list carries a `Content-Length` entry. -/
def hasContentLength (hs : List (String × String)) : Bool :=
  hs.any (fun h => h.1 == contentLength)

/-- A container whose response has a chunked body and, in its own header
list, a `Content-Length` header. -/
def pairChunkedCL : ReqResPair :=
  ⟨rocket0, some ⟨1⟩, some ⟨200, [(contentLength, "5")], some (.chunked [1, 2, 3] 4)⟩, none⟩

/-- C6 fails on the code: `into_hyper_response` copies the response's own
headers verbatim, so a chunked-body response that itself carries a
`Content-Length` header yields an emitted header set that does contain a
`Content-Length` header. -/
theorem c6_counterexample :
    into_hyper_response usizeMax64 pairChunkedCL =
      .ok (.ok ⟨200, [(contentLength, "5")],
        .reqRes ⟨rocket0, some ⟨1⟩, some ⟨200, [(contentLength, "5")], none⟩,
          some ⟨[1, 2, 3], 4⟩⟩⟩) ∧
    hasContentLength [(contentLength, "5")] = true := by
  constructor <;> rfl

/-- C6 (amended): for a `Sized` body with declared size `sz` the emitted
header set always contains a `Content-Length` header whose value is `sz`;
for a `Chunked` body `into_hyper_response` adds no `Content-Length`
header, so the emitted set contains none provided the response's own
header list carried none. -/
theorem c6_content_length_headers (u : Nat) (p : ReqResPair) (res : Response)
    (data : List Nat) (cs sz : Nat) (hr : HyperResponse) :
    (p.response = some res → res.body = some (.chunked data cs) → cs ≤ u →
      hasContentLength res.headers = false →
      into_hyper_response u p = .ok (.ok hr) →
      hasContentLength hr.headers = false) ∧
    (p.response = some res → res.body = some (.sized data sz) →
      into_hyper_response u p = .ok (.ok hr) →
      (contentLength, toString sz) ∈ hr.headers) := by
  constructor
  · intro h1 h2 h3 h4 h5
    simp [into_hyper_response, h1, h2, Nat.not_lt.mpr h3] at h5
    rw [← h5]
    exact h4
  · intro h1 h2 h5
    simp [into_hyper_response, h1, h2] at h5
    rw [← h5]
    simp

/-- Witness for C6's amended theorem: a chunked body with clean headers
carries no `Content-Length`, and a sized body of declared size 1 carries
`Content-Length: 1`. -/
theorem c6_witness :
    hasContentLength
      (HyperResponse.headers ⟨200, [], .reqRes ⟨rocket0, some ⟨1⟩,
        some ⟨200, [], none⟩, some ⟨[1, 2, 3], 4⟩⟩⟩) = false ∧
    (contentLength, toString (1 : Nat)) ∈
      HyperResponse.headers ⟨200, [(contentLength, toString (1 : Nat))],
        .reqRes ⟨rocket0, some ⟨1⟩, some ⟨200, [], none⟩, some ⟨[5], 4096⟩⟩⟩ :=
  ⟨(c6_content_length_headers usizeMax64
      ⟨rocket0, some ⟨1⟩, some ⟨200, [], some (.chunked [1, 2, 3] 4)⟩, none⟩
      ⟨200, [], some (.chunked [1, 2, 3] 4)⟩ [1, 2, 3] 4 0
      ⟨200, [], .reqRes ⟨rocket0, some ⟨1⟩, some ⟨200, [], none⟩, some ⟨[1, 2, 3], 4⟩⟩⟩).1
      rfl rfl (by decide) rfl rfl,
   (c6_content_length_headers usizeMax64
      ⟨rocket0, some ⟨1⟩, some ⟨200, [], some (.sized [5] 1)⟩, none⟩
      ⟨200, [], some (.sized [5] 1)⟩ [5] 0 1
      ⟨200, [(contentLength, toString (1 : Nat))],
        .reqRes ⟨rocket0, some ⟨1⟩, some ⟨200, [], none⟩, some ⟨[5], 4096⟩⟩⟩).2
      rfl rfl rfl⟩

/-! ### C7 -/

/-- The 13 bytes of "Hello, world!". -/
def data13 : List Nat :=
  [72, 101, 108, 108, 111, 44, 32, 119, 111, 114, 108, 100, 33]

/-- C7: draining the stream built by `into_bytes_stream` over an `N`-byte
source with chunk size `C ≥ 1` yields `⌈N / C⌉` chunks (here written
`(N + C - 1) / C`), zero chunks for an empty source, the concatenation of
the chunks is the source in order, and the last chunk has length
`N mod C`, or `C` when `C` divides `N` evenly. -/
theorem c7_drain_chunk_shape (data : List Nat) (C : Nat) (hc : 1 ≤ C) :
    (drain (intoBytesStream data C)).length = (data.length + C - 1) / C ∧
    (drain (intoBytesStream data C)).flatten = data ∧
    (data = [] → drain (intoBytesStream data C) = []) ∧
    (data ≠ [] →
      ((drain (intoBytesStream data C)).getLast?).map List.length =
        some (if data.length % C = 0 then C else data.length % C)) := by
  refine ⟨chunksOf_length C hc data, chunksOf_flatten C hc data, ?_,
    chunksOf_last C hc data⟩
  intro h
  subst h
  rw [drain, intoBytesStream, chunksOf]

/-- Witness for C7 at the spec's concrete scenario: 13 bytes with chunk
size 4 yield 4 chunks, restore the bytes, and end in a 1-byte chunk. -/
theorem c7_witness :
    (drain (intoBytesStream data13 4)).length = (data13.length + 4 - 1) / 4 ∧
    (drain (intoBytesStream data13 4)).flatten = data13 ∧
    (data13 = [] → drain (intoBytesStream data13 4) = []) ∧
    (data13 ≠ [] →
      ((drain (intoBytesStream data13 4)).getLast?).map List.length =
        some (if data13.length % 4 = 0 then 4 else data13.length % 4)) :=
  c7_drain_chunk_shape data13 4 (by decide)

/-! ### C8 -/

/-- Polling a `ReqRes` payload whose container holds a stream never
reaches the `unreachable_unchecked` branch, and the successor container
still holds a stream. -/
theorem poll_data_stream_some (q : ReqResPair) (s : IntoBytesStream)
    (h : q.stream = some s) :
    (poll_data (.reqRes q)).isPanic = false ∧
    (∀ out q2, poll_data (.reqRes q) = .ok (out, .reqRes q2) →
      q2.stream.isSome = true) := by
  constructor
  · cases hp : pollNext s with
    | none => simp [poll_data, h, hp, PanicOr.isPanic]
    | some v => simp [poll_data, h, hp, PanicOr.isPanic]
  · intro out q2 hq
    cases hp : pollNext s with
    | none =>
      simp [poll_data, h, hp] at hq
      rw [← hq.2, h]
      rfl
    | some v =>
      obtain ⟨ch, s2⟩ := v
      simp [poll_data, h, hp] at hq
      rw [← hq.2]
      rfl

/-- C8: whenever `into_hyper_response` returns a `ReqRes` payload, the
container inside it holds a stream (`stream` is `Some`), so the
`unreachable_unchecked` branch of `poll_data` is never reached: the first
poll does not hit it, and every successful poll hands back a container
that again holds a stream. -/
theorem c8_reqres_payload_has_stream (u : Nat) (p q : ReqResPair)
    (hr : HyperResponse)
    (h1 : into_hyper_response u p = .ok (.ok hr)) (h2 : hr.payload = .reqRes q) :
    q.stream.isSome = true ∧
    (poll_data (.reqRes q)).isPanic = false ∧
    (∀ out q2, poll_data (.reqRes q) = .ok (out, .reqRes q2) →
      q2.stream.isSome = true) := by
  have hstream : ∃ s, q.stream = some s := by
    cases hres : p.response with
    | none => simp [into_hyper_response, hres] at h1
    | some res =>
      cases hbody : res.body with
      | none =>
        simp [into_hyper_response, hres, hbody] at h1
        rw [← h1] at h2
        simp at h2
      | some b =>
        cases b with
        | chunked data cs =>
          rcases Nat.lt_or_ge u cs with hcs | hcs
          · simp [into_hyper_response, hres, hbody, hcs] at h1
          · simp [into_hyper_response, hres, hbody, Nat.not_lt.mpr hcs] at h1
            rw [← h1] at h2
            simp at h2
            exact ⟨intoBytesStream data cs, by rw [← h2]⟩
        | sized data sz =>
          simp [into_hyper_response, hres, hbody] at h1
          rw [← h1] at h2
          simp at h2
          exact ⟨intoBytesStream data 4096, by rw [← h2]⟩
  obtain ⟨s, hs⟩ := hstream
  exact ⟨by rw [hs]; rfl, (poll_data_stream_some q s hs).1,
    (poll_data_stream_some q s hs).2⟩

/-- A container holding a sized two-byte body, and the container the
`ReqRes` payload holds after finalization. -/
def pairSized2 : ReqResPair :=
  ⟨rocket0, some ⟨1⟩, some ⟨200, [], some (.sized [1, 2] 2)⟩, none⟩

/-- The finalized form of `pairSized2`: body taken, stream installed. -/
def qSized2 : ReqResPair :=
  ⟨rocket0, some ⟨1⟩, some ⟨200, [], none⟩, some ⟨[1, 2], 4096⟩⟩

/-- Witness for C8 at a concrete sized-body container. -/
theorem c8_witness :
    qSized2.stream.isSome = true ∧
    (poll_data (.reqRes qSized2)).isPanic = false ∧
    (∀ out q2, poll_data (.reqRes qSized2) = .ok (out, .reqRes q2) →
      q2.stream.isSome = true) :=
  c8_reqres_payload_has_stream usizeMax64 pairSized2 qSized2
    ⟨200, [(contentLength, toString (2 : Nat))], .reqRes qSized2⟩ rfl rfl

/-! ### C9 -/

/-- C9: when the request-construction function fails, `try_set_request`
returns the typed failure and the container is unchanged — in particular
no request was stored, so a container in the `Bound` phase stays in it. -/
theorem c9_request_failure_leaves_container (ε : Type) (p : ReqResPair)
    (f : Rocket → Except ε Request) (e : ε)
    (h1 : p.request = none) (h2 : p.response = none) (h3 : f p.rocket = .error e) :
    try_set_request p f = .ok (.error e, p) ∧ p.request = none := by
  refine ⟨?_, h1⟩
  simp [try_set_request, h2, h3]

/-- Witness for C9: a failing construction function on a fresh container. -/
theorem c9_witness :
    try_set_request pairBound (fun _ => .error "malformed") =
      .ok (.error "malformed", pairBound) ∧
    pairBound.request = none :=
  c9_request_failure_leaves_container String pairBound
    (fun _ => .error "malformed") "malformed" rfl rfl rfl

/-! ### C10 -/

/-- C10: a response with no body finalizes to a transport response whose
header set carries `Content-Length: 0` and whose payload is the `Empty`
variant, and polling `Empty` yields end-of-body with the payload
unchanged — hence on every poll. -/
theorem c10_no_body_empty_payload (u : Nat) (p : ReqResPair) (res : Response)
    (h1 : p.response = some res) (h2 : res.body = none) :
    into_hyper_response u p =
      .ok (.ok ⟨res.status, res.headers ++ [(contentLength, "0")], .empty⟩) ∧
    (contentLength, "0") ∈ res.headers ++ [(contentLength, "0")] ∧
    poll_data .empty = .ok (none, .empty) := by
  refine ⟨by simp [into_hyper_response, h1, h2], by simp, rfl⟩

/-- Witness for C10 at a concrete body-less container. -/
theorem c10_witness :
    into_hyper_response usizeMax64 pairResponded =
      .ok (.ok ⟨resNoBody.status, resNoBody.headers ++ [(contentLength, "0")], .empty⟩) ∧
    (contentLength, "0") ∈ resNoBody.headers ++ [(contentLength, "0")] ∧
    poll_data .empty = .ok (none, .empty) :=
  c10_no_body_empty_payload usizeMax64 pairResponded resNoBody rfl rfl

end ReqResPairModel
